import Mathlib

/-!
Verification of the node identity/lifecycle layer declared in
`rcl/include/rcl/node.h`.

The repository contains only the header: the types `rcl_node_t` and
`rcl_node_options_t` and the declarations plus documentation comments of
`rcl_get_zero_initialized_node`, `rcl_node_init`, `rcl_node_fini`,
`rcl_node_get_default_options`, `rcl_node_get_name`, `rcl_node_get_options`
and `rcl_node_get_rmw_node_handle`.  The implementation file is not part of
the repository, so the behaviour of these operations is modelled from the
specification (the node handle state machine, the options resolver, the
identity registrar with its eviction policy, and the dependent registry),
staying faithful to the header's documentation where it speaks.

Pointers are modelled as `Option`, the middleware participant handle and
dependent references as natural-number identifiers, and the communication
domain plus the liveness of dependents as an explicit `World` record that
every lifecycle operation threads through.
-/

namespace RclNode

/-- Result codes.  The header only distinguishes `RMW_RET_OK` from
`RMW_RET_ERROR`; the spec's error taxonomy (§7) refines the error side into
the conditions below. -/
inductive rcl_ret_t where
  | ok
  | invalid_argument
  | precondition_violation
  | resource_exhaustion
  | name_collision_unresolvable
  | transport_failure
  | invalid_state
  deriving DecidableEq, Repr

/-- Modelled from the spec: the abstract lifecycle state of a node handle
(§3, §4.1): `ZeroInitialized → Valid → Invalid`.  The header (lines 29-34)
describes the same states, with zero-initialized and shutdown both counted
as "invalid" for the purpose of the accessors. -/
inductive NodeState where
  | ZeroInitialized
  | Valid
  | Invalid
  deriving DecidableEq, Repr

/-- The allocator binding (`rcl_allocator_t`).  In C this is a record of
function pointers; observably the options resolver only checks that the
allocation and deallocation behaviours are non-null (§4.2), so the model
keeps exactly those two presence bits. -/
structure rcl_allocator_t where
  allocate_nonnull : Bool
  deallocate_nonnull : Bool
  deriving DecidableEq, Repr

/-- The process default allocator (well-formed). -/
def defaultAllocator : rcl_allocator_t :=
  { allocate_nonnull := true, deallocate_nonnull := true }

/-- `rcl_node_options_t` from the header (lines 40-47): a flag suppressing
the parameter infrastructure and the incidental-allocation allocator. -/
structure rcl_node_options_t where
  no_parameters : Bool
  allocator : rcl_allocator_t
  deriving DecidableEq, Repr

/-- Modelled from the spec: the private implementation record behind the
opaque `struct rcl_node_impl_t *` pointer: the stored name, the captured
effective options, the underlying middleware participant handle, and the
dependent registry of primitives created under this node (§3). -/
structure rcl_node_impl_t where
  name : String
  options : rcl_node_options_t
  rmw_handle : Nat
  dependents : List Nat
  deriving DecidableEq, Repr

/-- `rcl_node_t` from the header (lines 35-38): a single private
implementation pointer, `none` standing for `NULL`.  The abstract lifecycle
state of the spec's state machine is carried alongside as ghost state so
that the three spec states remain distinguishable in theorems (concretely,
zero-initialized and shutdown handles both have `impl = none`). -/
structure rcl_node_t where
  impl : Option rcl_node_impl_t
  state : NodeState
  deriving DecidableEq, Repr

/-- The domain's namespace of registered participants: alive participants
as `(participant id, registered name)` pairs, plus a fresh-id counter for
newly opened participants. -/
structure Domain where
  participants : List (Nat × String)
  nextId : Nat
  deriving DecidableEq, Repr

/-- The world every lifecycle operation threads: the communication domain,
the set of currently-valid dependent primitives, and a fresh-id counter for
dependents. -/
structure World where
  domain : Domain
  depAlive : List Nat
  nextDep : Nat
  deriving DecidableEq, Repr

/-- A participant id is alive in the domain iff it is still registered. -/
def participantAlive (d : Domain) (id : Nat) : Bool :=
  d.participants.any (fun p => p.1 = id)

/-- `rcl_get_zero_initialized_node` (header lines 49-55): a node struct
with members initialized to NULL. -/
def rcl_get_zero_initialized_node : rcl_node_t :=
  { impl := none, state := NodeState.ZeroInitialized }

/-- `rcl_node_get_default_options` (header lines 112-114), modelled from the
spec §4.2: parameter infrastructure on (`no_parameters = false`) and the
process default allocator. -/
def rcl_node_get_default_options : rcl_node_options_t :=
  { no_parameters := false, allocator := defaultAllocator }

/-- An allocator is well-formed when its allocation and deallocation
behaviours are both non-null (§4.2). -/
def allocatorWellFormed (a : rcl_allocator_t) : Bool :=
  a.allocate_nonnull && a.deallocate_nonnull

/-- Modelled from the spec: the options resolver §4.2 (the implementation
file is not in the repository).  Absent user options yield the default
record; present options are validated (well-formed allocator) and returned
as a value copy.  The caller-supplied input is never mutated: the resolver
is a pure function of it. -/
def resolveOptions : Option rcl_node_options_t → Except rcl_ret_t rcl_node_options_t
  | none => Except.ok rcl_node_get_default_options
  | some o =>
    if allocatorWellFormed o.allocator then Except.ok o
    else Except.error rcl_ret_t.invalid_argument

/-- Modelled from the spec: the identity registrar's claim §4.3 over the
domain namespace.  A fresh participant id is opened and the name is
claimed; any pre-existing participant registered under the same name is
evicted (removed from the domain) rather than the new claim being
rejected — the "last writer wins" policy of the header (lines 64-65: "If a
node of the same name is already in the domain, it will be shutdown"). -/
def claimName (d : Domain) (nm : String) : Nat × Domain :=
  let pid := d.nextId
  (pid,
    { participants := (d.participants.filter (fun p => p.2 ≠ nm)) ++ [(pid, nm)],
      nextId := d.nextId + 1 })

/-- Failures injectable into `rcl_node_init` from its collaborators:
allocation failure, transport participant-open failure, and a name claim
that fails even after the eviction attempt (§6, §7). -/
inductive InitFailure where
  | allocFail
  | transportOpenFail
  | nameClaimFail
  deriving DecidableEq, Repr

/-- Modelled from the spec: `rcl_node_init` (header lines 94-95; §4.1).
Checks the `ZeroInitialized` precondition (violations are reported as
precondition violations, never silently tolerated), validates the name
(null or empty name is an invalid argument), resolves the options, then —
unless a collaborator failure is injected — opens a participant, claims the
name in the domain (evicting any same-named pre-existing participant), and
bootstraps the parameter-infrastructure dependents unless suppressed.  On
any failure partway through, everything is rolled back: the world is
untouched and the handle is left zero-initialized-equivalent. -/
def rcl_node_init (w : World) (node : rcl_node_t) (name : Option String)
    (options : Option rcl_node_options_t) (fail : Option InitFailure) :
    rcl_ret_t × World × rcl_node_t :=
  if node.state = NodeState.ZeroInitialized then
    match name with
    | none => (rcl_ret_t.invalid_argument, w, node)
    | some nm =>
      if nm = "" then (rcl_ret_t.invalid_argument, w, node)
      else
        match resolveOptions options with
        | Except.error e => (e, w, node)
        | Except.ok opts =>
          match fail with
          | some InitFailure.allocFail =>
            (rcl_ret_t.resource_exhaustion, w, rcl_get_zero_initialized_node)
          | some InitFailure.transportOpenFail =>
            (rcl_ret_t.transport_failure, w, rcl_get_zero_initialized_node)
          | some InitFailure.nameClaimFail =>
            (rcl_ret_t.name_collision_unresolvable, w, rcl_get_zero_initialized_node)
          | none =>
            let claimed := claimName w.domain nm
            let paramDeps : List Nat :=
              if opts.no_parameters then [] else [w.nextDep, w.nextDep + 1]
            let node' : rcl_node_t :=
              { impl := some { name := nm, options := opts,
                               rmw_handle := claimed.1, dependents := paramDeps },
                state := NodeState.Valid }
            (rcl_ret_t.ok,
             { domain := claimed.2,
               depAlive := w.depAlive ++ paramDeps,
               nextDep := w.nextDep + paramDeps.length },
             node')
  else
    (rcl_ret_t.precondition_violation, w, node)

/-- Modelled from the spec: `rcl_node_fini` (header lines 109-110; §4.1).
On a valid handle: every entry of the dependent registry is invalidated
(parameter-infrastructure primitives alongside user-created ones), the
middleware participant is closed (removed from the domain), the
implementation is released, and the handle transitions to `Invalid`.  A
transport-close failure is surfaced as the result code, but the handle is
still marked `Invalid` best-effort (§7).  Calling it on a non-valid handle
is an invalid-state error that leaves everything unchanged. -/
def rcl_node_fini (w : World) (node : rcl_node_t) (closeFail : Bool) :
    rcl_ret_t × World × rcl_node_t :=
  match node.state, node.impl with
  | NodeState.Valid, some i =>
    ((if closeFail then rcl_ret_t.transport_failure else rcl_ret_t.ok),
     { domain := { participants := w.domain.participants.filter (fun p => p.1 ≠ i.rmw_handle),
                   nextId := w.domain.nextId },
       depAlive := w.depAlive.filter (fun d => d ∉ i.dependents),
       nextDep := w.nextDep },
     { impl := none, state := NodeState.Invalid })
  | _, _ => (rcl_ret_t.invalid_state, w, node)

/-- Modelled from the spec: creating a middleware primitive under a node
(§3 DependentRef, §4.5).  It needs a valid node whose participant is still
alive in the domain; a node whose participant was evicted observes a
transport error (§4.3, §8 testable property on eviction).  On success the
fresh dependent is registered both in the node's dependent registry and as
alive in the world. -/
def rcl_node_create_dependent (w : World) (node : rcl_node_t) :
    rcl_ret_t × World × rcl_node_t :=
  match node.state, node.impl with
  | NodeState.Valid, some i =>
    if participantAlive w.domain i.rmw_handle then
      (rcl_ret_t.ok,
       { domain := w.domain,
         depAlive := w.depAlive ++ [w.nextDep],
         nextDep := w.nextDep + 1 },
       { impl := some { i with dependents := i.dependents ++ [w.nextDep] },
         state := NodeState.Valid })
    else
      (rcl_ret_t.transport_failure, w, node)
  | _, _ => (rcl_ret_t.invalid_state, w, node)

/-- `rcl_node_get_name` (header lines 129-130): returns the node's internal
name string, or NULL if the node pointer is NULL or the implementation is
invalid (header lines 117-120). -/
def rcl_node_get_name (node : Option rcl_node_t) : Option String :=
  match node with
  | none => none
  | some n => n.impl.map (fun i => i.name)

/-- `rcl_node_get_options` (header lines 145-146): returns the node's
internal options struct, or NULL if the node pointer is NULL or the
implementation is invalid (header lines 133-136). -/
def rcl_node_get_options (node : Option rcl_node_t) : Option rcl_node_options_t :=
  match node with
  | none => none
  | some n => n.impl.map (fun i => i.options)

/-- `rcl_node_get_rmw_node_handle` (header lines 161-162): returns the
internally held rmw handle, or NULL if the node pointer is NULL or the
implementation is invalid (header lines 150-152). -/
def rcl_node_get_rmw_node_handle (node : Option rcl_node_t) : Option Nat :=
  match node with
  | none => none
  | some n => n.impl.map (fun i => i.rmw_handle)

/-- The three accessors bundled into a single observation of a handle. -/
def observe (n : rcl_node_t) : Option String × Option rcl_node_options_t × Option Nat :=
  (rcl_node_get_name (some n), rcl_node_get_options (some n),
   rcl_node_get_rmw_node_handle (some n))

/-- The header's notion of a usable handle: "the implementation is invalid"
means `impl` is NULL, which covers both zero-initialized and shutdown
handles (header lines 29-34). -/
def implValid (n : rcl_node_t) : Bool :=
  n.impl.isSome

/-- The accessors take the node by `const` pointer; the call form returns
the (unchanged) world and handle alongside the result, mirroring the state
a C caller observes after the call. -/
def rcl_node_get_name_call (w : World) (n : rcl_node_t) :
    Option String × World × rcl_node_t :=
  (rcl_node_get_name (some n), w, n)

/-- `rcl_node_get_options` in call form (const pointer). -/
def rcl_node_get_options_call (w : World) (n : rcl_node_t) :
    Option rcl_node_options_t × World × rcl_node_t :=
  (rcl_node_get_options (some n), w, n)

/-- `rcl_node_get_rmw_node_handle` in call form (const pointer). -/
def rcl_node_get_rmw_node_handle_call (w : World) (n : rcl_node_t) :
    Option Nat × World × rcl_node_t :=
  (rcl_node_get_rmw_node_handle (some n), w, n)

/-- The lifecycle and use operations available on a handle, for trace
reasoning over reachable sequences. -/
inductive Op where
  | opInit (name : Option String) (options : Option rcl_node_options_t) (fail : Option InitFailure)
  | opFini (closeFail : Bool)
  | opCreateDep
  | opGetName
  | opGetOptions
  | opGetRmwHandle
  deriving DecidableEq, Repr

/-- One step of the lifecycle state machine: apply an operation to the
world and the handle. -/
def step (w : World) (n : rcl_node_t) : Op → rcl_ret_t × World × rcl_node_t
  | Op.opInit name options fail => rcl_node_init w n name options fail
  | Op.opFini closeFail => rcl_node_fini w n closeFail
  | Op.opCreateDep => rcl_node_create_dependent w n
  | Op.opGetName => (rcl_ret_t.ok, (rcl_node_get_name_call w n).2)
  | Op.opGetOptions => (rcl_ret_t.ok, (rcl_node_get_options_call w n).2)
  | Op.opGetRmwHandle => (rcl_ret_t.ok, (rcl_node_get_rmw_node_handle_call w n).2)

/-- Run a sequence of operations on a handle. -/
def runOps (w : World) (n : rcl_node_t) : List Op → World × rcl_node_t
  | [] => (w, n)
  | op :: ops => runOps (step w n op).2.1 (step w n op).2.2 ops

/-- Count, along a trace, the transitions that take the handle from
`ZeroInitialized` to `Valid`. -/
def zvCount (w : World) (n : rcl_node_t) : List Op → Nat
  | [] => 0
  | op :: ops =>
    (if n.state = NodeState.ZeroInitialized ∧
        (step w n op).2.2.state = NodeState.Valid then 1 else 0) +
    zvCount (step w n op).2.1 (step w n op).2.2 ops

/-! Sample fixtures used to instantiate theorems at concrete inputs. -/

/-- A sample implementation record: node named `"n"`, default options,
participant id `0`, dependents `3` and `4`. -/
def sampleImpl : rcl_node_impl_t :=
  { name := "n", options := rcl_node_get_default_options,
    rmw_handle := 0, dependents := [3, 4] }

/-- A sample valid node built over `sampleImpl`. -/
def sampleValidNode : rcl_node_t :=
  { impl := some sampleImpl, state := NodeState.Valid }

/-- A sample world in which `sampleValidNode`'s participant is registered
under `"n"` and its dependents are alive. -/
def sampleWorld : World :=
  { domain := { participants := [(0, "n")], nextId := 1 },
    depAlive := [3, 4], nextDep := 5 }

/-- The world after initializing a first node named `"n"` in an empty
domain. -/
def worldA : World :=
  (rcl_node_init ⟨⟨[], 0⟩, [], 0⟩ rcl_get_zero_initialized_node
    (some "n") none none).2.1

/-- The first node named `"n"`, initialized in an empty domain. -/
def nodeA : rcl_node_t :=
  (rcl_node_init ⟨⟨[], 0⟩, [], 0⟩ rcl_get_zero_initialized_node
    (some "n") none none).2.2

/-- Claim C2: calling init on a handle whose state is already `Valid` fails
with a precondition-violation error and leaves the handle (all its
observable fields) and the world unchanged. -/
theorem init_on_valid_precondition_violation (w : World) (n : rcl_node_t)
    (name : Option String) (options : Option rcl_node_options_t)
    (fail : Option InitFailure) (h : n.state = NodeState.Valid) :
    rcl_node_init w n name options fail = (rcl_ret_t.precondition_violation, w, n) := by
  simp [rcl_node_init, h]

/-- Witness for C2 at a concrete valid node. -/
theorem init_on_valid_precondition_violation_witness :
    rcl_node_init sampleWorld sampleValidNode (some "m") none none
      = (rcl_ret_t.precondition_violation, sampleWorld, sampleValidNode) :=
  init_on_valid_precondition_violation sampleWorld sampleValidNode
    (some "m") none none rfl

/-- Claim C4: for a well-formed handle (implementation present exactly in
state `Valid`), each accessor returns absent iff the handle pointer is null
or the handle is not valid, and returns a present result when the handle is
valid. -/
theorem accessors_absent_iff_not_valid (n : rcl_node_t)
    (hwf : n.impl.isSome = true ↔ n.state = NodeState.Valid) :
    (rcl_node_get_name none = none ∧ rcl_node_get_options none = none ∧
       rcl_node_get_rmw_node_handle none = none)
    ∧ ((rcl_node_get_name (some n) = none ↔ ¬ n.state = NodeState.Valid)
       ∧ (rcl_node_get_options (some n) = none ↔ ¬ n.state = NodeState.Valid)
       ∧ (rcl_node_get_rmw_node_handle (some n) = none ↔ ¬ n.state = NodeState.Valid))
    ∧ (n.state = NodeState.Valid →
       (rcl_node_get_name (some n)).isSome = true
       ∧ (rcl_node_get_options (some n)).isSome = true
       ∧ (rcl_node_get_rmw_node_handle (some n)).isSome = true) := by
  cases himpl : n.impl with
  | none =>
    rw [himpl] at hwf
    simp only [Option.isSome_none, Bool.false_eq_true, false_iff] at hwf
    simp [rcl_node_get_name, rcl_node_get_options, rcl_node_get_rmw_node_handle,
      himpl, hwf]
  | some i =>
    rw [himpl] at hwf
    simp only [Option.isSome_some, true_iff] at hwf
    simp [rcl_node_get_name, rcl_node_get_options, rcl_node_get_rmw_node_handle,
      himpl, hwf]

/-- Witness for C4 at a concrete valid node. -/
theorem accessors_absent_iff_not_valid_witness :
    (rcl_node_get_name none = none ∧ rcl_node_get_options none = none ∧
       rcl_node_get_rmw_node_handle none = none)
    ∧ ((rcl_node_get_name (some sampleValidNode) = none ↔ ¬ sampleValidNode.state = NodeState.Valid)
       ∧ (rcl_node_get_options (some sampleValidNode) = none ↔ ¬ sampleValidNode.state = NodeState.Valid)
       ∧ (rcl_node_get_rmw_node_handle (some sampleValidNode) = none ↔ ¬ sampleValidNode.state = NodeState.Valid))
    ∧ (sampleValidNode.state = NodeState.Valid →
       (rcl_node_get_name (some sampleValidNode)).isSome = true
       ∧ (rcl_node_get_options (some sampleValidNode)).isSome = true
       ∧ (rcl_node_get_rmw_node_handle (some sampleValidNode)).isSome = true) :=
  accessors_absent_iff_not_valid sampleValidNode (by decide)

/-- Claim C7: on a valid handle, a fini whose transport close fails returns
the failure code, but the handle is marked `Invalid` regardless; fini never
leaves the handle `Valid`. -/
theorem fini_failure_still_invalidates (w : World) (n : rcl_node_t)
    (i : rcl_node_impl_t) (closeFail : Bool)
    (hs : n.state = NodeState.Valid) (hi : n.impl = some i) :
    (rcl_node_fini w n closeFail).1 =
      (if closeFail then rcl_ret_t.transport_failure else rcl_ret_t.ok)
    ∧ (rcl_node_fini w n closeFail).2.2.state = NodeState.Invalid := by
  simp [rcl_node_fini, hs, hi]

/-- Witness for C7: transport-close failure at a concrete valid node. -/
theorem fini_failure_still_invalidates_witness :
    (rcl_node_fini sampleWorld sampleValidNode true).1 = rcl_ret_t.transport_failure
    ∧ (rcl_node_fini sampleWorld sampleValidNode true).2.2.state = NodeState.Invalid :=
  ⟨(fini_failure_still_invalidates sampleWorld sampleValidNode sampleImpl true rfl rfl).1,
   (fini_failure_still_invalidates sampleWorld sampleValidNode sampleImpl true rfl rfl).2⟩

/-- Claim C8: the resolver applied to absent options equals the record
returned by get-default-options in all fields (`no_parameters = false`,
process default allocator); on present well-formed options it returns the
input as a value copy, never mutating it (the resolver is a pure
function). -/
theorem resolve_none_eq_default_options :
    resolveOptions none = Except.ok rcl_node_get_default_options
    ∧ rcl_node_get_default_options.no_parameters = false
    ∧ rcl_node_get_default_options.allocator = defaultAllocator
    ∧ ∀ o : rcl_node_options_t, allocatorWellFormed o.allocator = true →
        resolveOptions (some o) = Except.ok o := by
  refine ⟨rfl, rfl, rfl, fun o h => ?_⟩
  simp [resolveOptions, h]

/-- Witness for C8 at the concrete default options record. -/
theorem resolve_none_eq_default_options_witness :
    resolveOptions (some rcl_node_get_default_options)
      = Except.ok rcl_node_get_default_options :=
  resolve_none_eq_default_options.2.2.2 rcl_node_get_default_options (by decide)

/-- Claim C9: a freshly zero-initialized handle is classified as not
implementation-valid (its impl pointer is NULL), and a finalized handle is
indistinguishable from it through every public accessor: both observe as
(absent, absent, absent). -/
theorem zero_init_and_finalized_indistinguishable (w : World) (n : rcl_node_t)
    (i : rcl_node_impl_t) (closeFail : Bool)
    (hs : n.state = NodeState.Valid) (hi : n.impl = some i) :
    observe (rcl_node_fini w n closeFail).2.2 = observe rcl_get_zero_initialized_node
    ∧ observe rcl_get_zero_initialized_node = (none, none, none)
    ∧ implValid rcl_get_zero_initialized_node = false
    ∧ implValid (rcl_node_fini w n closeFail).2.2 = false := by
  simp [rcl_node_fini, hs, hi, observe, rcl_node_get_name, rcl_node_get_options,
    rcl_node_get_rmw_node_handle, implValid, rcl_get_zero_initialized_node]

/-- Witness for C9 at a concrete valid node. -/
theorem zero_init_and_finalized_indistinguishable_witness :
    observe (rcl_node_fini sampleWorld sampleValidNode false).2.2
      = observe rcl_get_zero_initialized_node
    ∧ observe rcl_get_zero_initialized_node = (none, none, none)
    ∧ implValid rcl_get_zero_initialized_node = false
    ∧ implValid (rcl_node_fini sampleWorld sampleValidNode false).2.2 = false :=
  zero_init_and_finalized_indistinguishable sampleWorld sampleValidNode
    sampleImpl false rfl rfl

/-- Claim C10: the accessors take the node by const pointer and have no
side effects: in call form each returns the world and the handle exactly as
given, for every handle in every state. -/
theorem accessors_preserve_handle (w : World) (n : rcl_node_t) :
    (rcl_node_get_name_call w n).2 = (w, n)
    ∧ (rcl_node_get_options_call w n).2 = (w, n)
    ∧ (rcl_node_get_rmw_node_handle_call w n).2 = (w, n) :=
  ⟨rfl, rfl, rfl⟩

/-- Claim C3: starting from a freshly zero-initialized handle, if init
fails for any reason (invalid argument, allocation failure, transport-open
failure, name-claim failure), the world is untouched (no partial state
escapes) and the returned handle equals the freshly zero-initialized handle
— in particular every accessor on it is absent. -/
theorem init_failure_rolls_back (w : World) (name : Option String)
    (options : Option rcl_node_options_t) (fail : Option InitFailure)
    (h : (rcl_node_init w rcl_get_zero_initialized_node name options fail).1 ≠ rcl_ret_t.ok) :
    (rcl_node_init w rcl_get_zero_initialized_node name options fail).2.1 = w
    ∧ (rcl_node_init w rcl_get_zero_initialized_node name options fail).2.2
        = rcl_get_zero_initialized_node
    ∧ observe (rcl_node_init w rcl_get_zero_initialized_node name options fail).2.2
        = (none, none, none) := by
  rcases name with _ | nm
  · exact ⟨rfl, rfl, rfl⟩
  · by_cases hnm : nm = ""
    · subst hnm
      exact ⟨rfl, rfl, rfl⟩
    · rcases hro : resolveOptions options with e | opts
      · refine ⟨?_, ?_, ?_⟩ <;>
          simp [rcl_node_init, rcl_get_zero_initialized_node, hnm, hro, observe,
            rcl_node_get_name, rcl_node_get_options, rcl_node_get_rmw_node_handle]
      · rcases fail with _ | f
        · exfalso
          apply h
          simp [rcl_node_init, rcl_get_zero_initialized_node, hnm, hro]
        · cases f <;>
            refine ⟨?_, ?_, ?_⟩ <;>
              simp [rcl_node_init, rcl_get_zero_initialized_node, hnm, hro, observe,
                rcl_node_get_name, rcl_node_get_options, rcl_node_get_rmw_node_handle]

/-- Witness for C3: an injected allocation failure at a concrete input. -/
theorem init_failure_rolls_back_witness :
    (rcl_node_init sampleWorld rcl_get_zero_initialized_node (some "m") none
        (some InitFailure.allocFail)).2.1 = sampleWorld
    ∧ (rcl_node_init sampleWorld rcl_get_zero_initialized_node (some "m") none
        (some InitFailure.allocFail)).2.2 = rcl_get_zero_initialized_node
    ∧ observe (rcl_node_init sampleWorld rcl_get_zero_initialized_node (some "m") none
        (some InitFailure.allocFail)).2.2 = (none, none, none) :=
  init_failure_rolls_back sampleWorld (some "m") none
    (some InitFailure.allocFail) (by decide)

/-- Claim C6: after fini on a valid handle, every accessor on the returned
handle is absent, and every dependent registered under the handle —
user-created and internally-created parameter infrastructure alike — is no
longer alive once fini returns. -/
theorem fini_invalidates_accessors_and_dependents (w : World) (n : rcl_node_t)
    (i : rcl_node_impl_t) (closeFail : Bool)
    (hs : n.state = NodeState.Valid) (hi : n.impl = some i) :
    rcl_node_get_name (some (rcl_node_fini w n closeFail).2.2) = none
    ∧ rcl_node_get_options (some (rcl_node_fini w n closeFail).2.2) = none
    ∧ rcl_node_get_rmw_node_handle (some (rcl_node_fini w n closeFail).2.2) = none
    ∧ ∀ d ∈ i.dependents, d ∉ (rcl_node_fini w n closeFail).2.1.depAlive := by
  refine ⟨?_, ?_, ?_, ?_⟩
  · simp [rcl_node_fini, hs, hi, rcl_node_get_name]
  · simp [rcl_node_fini, hs, hi, rcl_node_get_options]
  · simp [rcl_node_fini, hs, hi, rcl_node_get_rmw_node_handle]
  · intro d hd
    simp [rcl_node_fini, hs, hi, List.mem_filter, hd]

/-- Witness for C6: a concrete valid node with dependents `3` and `4`;
after fini, get-name is absent and dependent `3` is no longer alive. -/
theorem fini_invalidates_accessors_and_dependents_witness :
    rcl_node_get_name (some (rcl_node_fini sampleWorld sampleValidNode false).2.2) = none
    ∧ (3 : Nat) ∉ (rcl_node_fini sampleWorld sampleValidNode false).2.1.depAlive :=
  ⟨(fini_invalidates_accessors_and_dependents sampleWorld sampleValidNode
      sampleImpl false rfl rfl).1,
   (fini_invalidates_accessors_and_dependents sampleWorld sampleValidNode
      sampleImpl false rfl rfl).2.2.2 3 (by decide)⟩

/-- Claim C1: initializing a new zero-initialized node under a name already
registered in the domain succeeds — the new claim is never rejected in
favor of the existing holder.  Get-name on the new node returns the claimed
name, the pre-existing colliding participant is evicted from the domain,
and subsequent use of the evicted node (creating a dependent) fails with a
transport error. -/
theorem init_evicts_colliding_participant (w : World) (nm : String)
    (options : Option rcl_node_options_t) (a : rcl_node_t) (ia : rcl_node_impl_t)
    (hnm : nm ≠ "")
    (hopts : ∃ o, resolveOptions options = Except.ok o)
    (has : a.state = NodeState.Valid) (hai : a.impl = some ia)
    (hfresh : ia.rmw_handle ≠ w.domain.nextId)
    (hreg : ∀ p ∈ w.domain.participants, p.1 = ia.rmw_handle → p.2 = nm) :
    (rcl_node_init w rcl_get_zero_initialized_node (some nm) options none).1 = rcl_ret_t.ok
    ∧ rcl_node_get_name
        (some (rcl_node_init w rcl_get_zero_initialized_node (some nm) options none).2.2)
        = some nm
    ∧ participantAlive
        (rcl_node_init w rcl_get_zero_initialized_node (some nm) options none).2.1.domain
        ia.rmw_handle = false
    ∧ (rcl_node_create_dependent
        (rcl_node_init w rcl_get_zero_initialized_node (some nm) options none).2.1 a).1
        = rcl_ret_t.transport_failure := by
  obtain ⟨o, ho⟩ := hopts
  have hres : rcl_node_init w rcl_get_zero_initialized_node (some nm) options none
      = (rcl_ret_t.ok,
         ⟨⟨(w.domain.participants.filter (fun p => p.2 ≠ nm))
             ++ [(w.domain.nextId, nm)], w.domain.nextId + 1⟩,
          w.depAlive ++ (if o.no_parameters then [] else [w.nextDep, w.nextDep + 1]),
          w.nextDep + (if o.no_parameters then ([] : List Nat)
            else [w.nextDep, w.nextDep + 1]).length⟩,
         ⟨some ⟨nm, o, w.domain.nextId,
            if o.no_parameters then [] else [w.nextDep, w.nextDep + 1]⟩,
          NodeState.Valid⟩) := by
    simp [rcl_node_init, rcl_get_zero_initialized_node, hnm, ho, claimName]
  have halive : participantAlive
      (rcl_node_init w rcl_get_zero_initialized_node (some nm) options none).2.1.domain
      ia.rmw_handle = false := by
    rw [hres]
    simp only [participantAlive, List.any_eq_true, List.mem_append, List.mem_filter,
      List.mem_singleton, decide_eq_true_eq]
    rw [Bool.eq_false_iff]
    intro hcontra
    rw [List.any_eq_true] at hcontra
    obtain ⟨p, hp, hid⟩ := hcontra
    simp only [List.mem_append, List.mem_filter, List.mem_singleton,
      decide_eq_true_eq] at hp hid
    rcases hp with ⟨hmem, hne⟩ | heq
    · exact hne (hreg p hmem hid)
    · apply hfresh
      rw [← hid, heq]
  refine ⟨?_, ?_, halive, ?_⟩
  · rw [hres]
  · rw [hres]
    simp [rcl_node_get_name]
  · simp [rcl_node_create_dependent, has, hai, halive]

/-- Witness for C1: a second node named `"n"` initialized into `worldA`
(which already holds `nodeA`, named `"n"`, as participant `0`): init
returns ok, the new node's name is `"n"`, participant `0` is evicted, and
creating a dependent from `nodeA` afterwards fails with a transport
error. -/
theorem init_evicts_colliding_participant_witness :
    (rcl_node_init worldA rcl_get_zero_initialized_node (some "n") none none).1 = rcl_ret_t.ok
    ∧ rcl_node_get_name
        (some (rcl_node_init worldA rcl_get_zero_initialized_node (some "n") none none).2.2)
        = some "n"
    ∧ participantAlive
        (rcl_node_init worldA rcl_get_zero_initialized_node (some "n") none none).2.1.domain
        0 = false
    ∧ (rcl_node_create_dependent
        (rcl_node_init worldA rcl_get_zero_initialized_node (some "n") none none).2.1 nodeA).1
        = rcl_ret_t.transport_failure :=
  init_evicts_colliding_participant worldA "n" none nodeA
    ⟨"n", rcl_node_get_default_options, 0, [0, 1]⟩
    (by decide) ⟨rcl_node_get_default_options, rfl⟩ (by decide) (by decide)
    (by decide) (by decide)

/-- An `Invalid` handle stays `Invalid` across any single operation. -/
theorem stepStateOfInvalid (w : World) (n : rcl_node_t) (op : Op)
    (h : n.state = NodeState.Invalid) :
    (step w n op).2.2.state = NodeState.Invalid := by
  rcases n with ⟨impl, st⟩
  have hst : st = NodeState.Invalid := h
  subst hst
  cases impl <;> cases op <;> rfl

/-- A `Valid` handle moves only to `Valid` or `Invalid` in one operation. -/
theorem stepStateOfValid (w : World) (n : rcl_node_t) (op : Op)
    (h : n.state = NodeState.Valid) :
    (step w n op).2.2.state = NodeState.Valid
    ∨ (step w n op).2.2.state = NodeState.Invalid := by
  rcases n with ⟨impl, st⟩
  have hst : st = NodeState.Valid := h
  subst hst
  cases impl with
  | none => cases op <;> exact Or.inl rfl
  | some i =>
    cases op with
    | opInit name options fail => exact Or.inl rfl
    | opFini closeFail => exact Or.inr rfl
    | opCreateDep =>
      left
      simp only [step, rcl_node_create_dependent]
      split <;> rfl
    | opGetName => exact Or.inl rfl
    | opGetOptions => exact Or.inl rfl
    | opGetRmwHandle => exact Or.inl rfl

/-- A `ZeroInitialized` handle moves only to `ZeroInitialized` (failed or
rejected operations) or `Valid` (successful init) in one operation. -/
theorem stepStateOfZero (w : World) (n : rcl_node_t) (op : Op)
    (h : n.state = NodeState.ZeroInitialized) :
    (step w n op).2.2.state = NodeState.ZeroInitialized
    ∨ (step w n op).2.2.state = NodeState.Valid := by
  rcases n with ⟨impl, st⟩
  have hst : st = NodeState.ZeroInitialized := h
  subst hst
  cases op with
  | opInit name options fail =>
    rcases name with _ | nm
    · cases impl <;> exact Or.inl rfl
    · by_cases hnm : nm = ""
      · subst hnm
        cases impl <;> exact Or.inl rfl
      · rcases hro : resolveOptions options with e | opts
        · cases impl <;>
            · left
              simp [step, rcl_node_init, hnm, hro]
        · rcases fail with _ | f
          · cases impl <;>
              · right
                simp [step, rcl_node_init, hnm, hro]
          · cases f <;> cases impl <;>
              · left
                simp [step, rcl_node_init, hnm, hro, rcl_get_zero_initialized_node]
  | opFini closeFail => cases impl <;> exact Or.inl rfl
  | opCreateDep => cases impl <;> exact Or.inl rfl
  | opGetName => cases impl <;> exact Or.inl rfl
  | opGetOptions => cases impl <;> exact Or.inl rfl
  | opGetRmwHandle => cases impl <;> exact Or.inl rfl

/-- A handle that has left `ZeroInitialized` never returns to it. -/
theorem stepStateNotZero (w : World) (n : rcl_node_t) (op : Op)
    (h : n.state ≠ NodeState.ZeroInitialized) :
    (step w n op).2.2.state ≠ NodeState.ZeroInitialized := by
  cases hst : n.state with
  | ZeroInitialized => exact absurd hst h
  | Valid =>
    rcases stepStateOfValid w n op hst with h2 | h2 <;> simp [h2]
  | Invalid =>
    simp [stepStateOfInvalid w n op hst]

/-- `Invalid` is absorbing along whole traces. -/
theorem runOpsInvalid (ops : List Op) :
    ∀ w n, n.state = NodeState.Invalid →
      (runOps w n ops).2.state = NodeState.Invalid := by
  induction ops with
  | nil => exact fun w n h => h
  | cons op ops ih =>
    exact fun w n h => ih _ _ (stepStateOfInvalid w n op h)

/-- A trace started outside `ZeroInitialized` contains no
zero-initialized-to-valid transition. -/
theorem zvCountOfNotZero (ops : List Op) :
    ∀ w n, n.state ≠ NodeState.ZeroInitialized → zvCount w n ops = 0 := by
  induction ops with
  | nil => exact fun w n _ => rfl
  | cons op ops ih =>
    intro w n h
    simp [zvCount, h, ih _ _ (stepStateNotZero w n op h)]

/-- Every trace contains at most one zero-initialized-to-valid
transition. -/
theorem zvCountLeOne (ops : List Op) : ∀ w n, zvCount w n ops ≤ 1 := by
  induction ops with
  | nil => exact fun w n => Nat.zero_le 1
  | cons op ops ih =>
    intro w n
    by_cases h : n.state = NodeState.ZeroInitialized
    · rcases stepStateOfZero w n op h with h2 | h2
      · have hcond : ¬ (n.state = NodeState.ZeroInitialized ∧
            (step w n op).2.2.state = NodeState.Valid) := by
          simp [h2]
        simpa [zvCount, hcond] using ih (step w n op).2.1 (step w n op).2.2
      · have h3 : (step w n op).2.2.state ≠ NodeState.ZeroInitialized := by
          simp [h2]
        simp [zvCount, h, h2, zvCountOfNotZero ops _ _ h3]
    · simp [zvCountOfNotZero (op :: ops) w n h]

/-- Claim C5: along every sequence of lifecycle operations, once a handle
is `Invalid` it stays `Invalid` (it never returns to `Valid` without
re-zero-initializing the memory), and the transition from
`ZeroInitialized` to `Valid` via init happens at most once. -/
theorem lifecycle_invalid_absorbing_and_single_init (w : World)
    (n : rcl_node_t) (ops : List Op) :
    (n.state = NodeState.Invalid →
      (runOps w n ops).2.state = NodeState.Invalid)
    ∧ zvCount w n ops ≤ 1 :=
  ⟨fun h => runOpsInvalid ops w n h, zvCountLeOne ops w n⟩

/-- Witness for C5: a concrete invalid handle stays invalid across a fini
and an accessor, and a concrete trace performs at most one init. -/
theorem lifecycle_invalid_absorbing_and_single_init_witness :
    (runOps ⟨⟨[], 0⟩, [], 0⟩ ⟨none, NodeState.Invalid⟩
        [Op.opFini false, Op.opGetName]).2.state = NodeState.Invalid
    ∧ zvCount ⟨⟨[], 0⟩, [], 0⟩ ⟨none, NodeState.Invalid⟩
        [Op.opFini false, Op.opGetName] ≤ 1 :=
  ⟨(lifecycle_invalid_absorbing_and_single_init ⟨⟨[], 0⟩, [], 0⟩
      ⟨none, NodeState.Invalid⟩ [Op.opFini false, Op.opGetName]).1 rfl,
   (lifecycle_invalid_absorbing_and_single_init ⟨⟨[], 0⟩, [], 0⟩
      ⟨none, NodeState.Invalid⟩ [Op.opFini false, Op.opGetName]).2⟩

end RclNode
